import Mathlib

/-!
Verification of the opaque-compiler extraction and staged template
compilation pipeline (`packages/core/src/template-compiler.ts`).

The TypeScript source is shallowly embedded: plugin values, AST nodes,
environment-configuration values, the global object-construction primitive
and bundle-execution errors are opaque type parameters `P`, `A`, `V`, `F`,
`ε`.  Effects are made explicit: the mutable plugin registry inside the
extracted compiler is threaded as a call trace, the global `Object.create`
slot is a `GlobalState`, the filesystem and the md5 digest are function
parameters, and executing the foreign bundle text is an abstract
`ExecOutcome`-valued function of the bundle source.
-/

namespace Embroider

variable {P A V F ε : Type}

/-- A resolved runtime dependency of a compiled template
(`ResolvedDep` from `resolver.ts`): `{runtimeName, path}`. -/
structure ResolvedDep where
  runtimeName : String
  path : String
deriving DecidableEq, Repr

/-- `interface Plugins { ast?: unknown[] }`.  Plugin values are opaque (`P`). -/
structure Plugins (P : Type) where
  ast : Option (List P)

/-- `interface PreprocessOptions { contents; moduleName; plugins? }`. -/
structure PreprocessOptions (P : Type) where
  contents : String
  moduleName : String
  plugins : Option (Plugins P)

/-- The second argument of the extracted `precompile` entry point:
`{ contents, moduleName }`. -/
structure PrecompileOptions where
  contents : String
  moduleName : String

/-- A top-level value of the host-supplied `EmberENV` configuration object:
either an opaque leaf value or a nested string-keyed table (the shape the
`FEATURES` entry is expected to have). -/
inductive EnvVal (V : Type) where
  | leaf : V → EnvVal V
  | table : List (String × V) → EnvVal V
deriving DecidableEq

/-- The extracted compiler's mutable global configuration
(`syntax._Ember`): the feature-flag table `FEATURES` and the environment
table `ENV`.  JavaScript objects are modelled as association lists in key
insertion order. -/
structure EmberGlobals (V : Type) where
  FEATURES : List (String × V)
  ENV : List (String × EnvVal V)
deriving DecidableEq

/-- JavaScript property assignment `obj[k] = v` on an association list:
overwrite the value at an existing key in place, otherwise append. -/
def setKey (m : List (String × α)) (k : String) (v : α) : List (String × α) :=
  if m.any (fun kv => kv.1 = k) then
    m.map (fun kv => if kv.1 = k then (k, v) else kv)
  else
    m ++ [(k, v)]

/-- JavaScript property read `obj[k]` on an association list. -/
def lookupKey (m : List (String × α)) (k : String) : Option α :=
  match m with
  | [] => none
  | kv :: rest => if kv.1 = k then some kv.2 else lookupKey rest k

/-- The API record assembled by `loadGlimmerSyntax` (interface
`GlimmerSyntax`).  `registerPlugin`'s mutation of the registry inside the
bundle is modelled separately as an explicit call trace
(see `registerPlugin` below), so the record keeps only the pure entry
points, the `_Ember` globals and the content-derived `cacheKey`. -/
structure GlimmerSyntax (P A V : Type) where
  preprocess : String → PreprocessOptions P → A
  print : A → String
  defaultOptions : PreprocessOptions P → PreprocessOptions P
  precompile : String → PrecompileOptions → String
  emberGlobals : EmberGlobals V
  cacheKey : String

/-- The resolver contract consumed by the compiler
(`Resolver` from `resolver.ts`): `astTransformerPlugin` is the opaque
plugin value `resolver.astTransformer(this)` returns, and
`dependenciesOf` maps a module name to its resolved dependencies. -/
structure Resolver (P : Type) where
  astTransformerPlugin : P
  dependenciesOf : String → List ResolvedDep

/-- `interface SetupCompilerParams`.  `EmberENV` is `unknown` in the
source and is checked for truthiness at runtime; it is modelled as an
optional association list of top-level entries. -/
structure SetupCompilerParams (P V : Type) where
  compilerPath : String
  resolver : Option (Resolver P)
  EmberENV : Option (List (String × EnvVal V))
  plugins : Plugins P

/-- `strip-bom`: drop a leading U+FEFF byte-order mark, if present
(`string.charCodeAt(0) === 0xFEFF ? string.slice(1) : string`). -/
def stripBom (s : String) : String :=
  if s.front = '\uFEFF' then s.drop 1 else s

/-- One call `syntax.registerPlugin(type, plugin)`, recorded on the
registry call trace. -/
def registerPlugin (reg : List (String × P)) (type : String) (plugin : P) :
    List (String × P) :=
  reg ++ [(type, plugin)]

/-- The `for` loop inside `registerPlugins`: register each plugin under
kind `'ast'` and bump `userPluginsCount` once per iteration. -/
def registerPluginsLoop : List P → List (String × P) → Nat → Nat × List (String × P)
  | [], reg, n => (n, reg)
  | p :: rest, reg, n => registerPluginsLoop rest (registerPlugin reg "ast" p) (n + 1)

/-- `function registerPlugins(syntax, plugins)`: register every
host-supplied AST plugin and return the user-plugin count (paired here
with the updated registry trace). -/
def registerPlugins (plugins : Plugins P) (reg : List (String × P)) :
    Nat × List (String × P) :=
  match plugins.ast with
  | none => (0, reg)
  | some l => registerPluginsLoop l reg 0

/-- The plugin-installation phase of `TemplateCompiler.setup`, starting
from an empty registry trace: `registerPlugins`, then, when a resolver is
configured, one more `registerPlugin('ast', resolver.astTransformer(this))`
with `userPluginsCount++`. -/
def installPlugins (params : SetupCompilerParams P V) : Nat × List (String × P) :=
  let r1 := registerPlugins params.plugins []
  match params.resolver with
  | some res => (r1.1 + 1, registerPlugin r1.2 "ast" res.astTransformerPlugin)
  | none => r1

/-- `function initializeEmberENV(syntax, EmberENV)`: no-op on a missing
configuration; otherwise copy every `FEATURES` entry into the feature-flag
table, then walk every top-level key, skipping `FEATURES` itself, copying
into the environment table. -/
def initializeEmberENV (g : EmberGlobals V)
    (EmberENV : Option (List (String × EnvVal V))) : EmberGlobals V :=
  match EmberENV with
  | none => g
  | some e =>
    let g1 := match lookupKey e "FEATURES" with
      | some (EnvVal.table feats) =>
        { g with FEATURES := feats.foldl (fun t (kv : String × V) => setKey t kv.1 kv.2) g.FEATURES }
      | _ => g
    let env2 := e.foldl (fun t kv => if kv.1 = "FEATURES" then t else setKey t kv.1 kv.2) g1.ENV
    { g1 with ENV := env2 }

/-! ## Compiler extraction (`loadGlimmerSyntax`) -/

/-- The process-global slot holding the object-construction primitive
`Object.create` (its value is opaque, of type `F`). -/
structure GlobalState (F : Type) where
  objectCreate : F

/-- The two internal entry points recovered from a captured module-map
object under the key `'@glimmer/syntax'` (its presence implies the
`.print` check of the scan succeeded). -/
structure GlimmerSyntaxModule (P A : Type) where
  print : A → String
  preprocess : String → PreprocessOptions P → A

/-- The sibling entry recovered under
`'ember-template-compiler/lib/system/compile-options'`: the
default-options builder (its `registerPlugin` is modelled as the registry
call trace). -/
structure CompileOptionsModule (P : Type) where
  default : PreprocessOptions P → PreprocessOptions P

/-- One object appended to the capture list while the bundle executes:
it may carry the `'@glimmer/syntax'` module map entry and the
compile-options entry. -/
structure CapturedObj (P A : Type) where
  glimmerSyntax : Option (GlimmerSyntaxModule P A)
  compileOptions : Option (CompileOptionsModule P)

/-- The value of `module.exports` returned by executing the bundle:
the narrow `precompile` entry point and the `_Ember` globals. -/
structure BundleExports (V : Type) where
  precompile : String → PrecompileOptions → String
  emberGlobals : EmberGlobals V

/-- The observable outcome of the bundle's one-time execution while the
interception is installed: a normal return of the exports or a thrown
error, the capture list the interception accumulated, and the value the
`Object.create` slot holds right after execution (the bundle may itself
have reassigned it). -/
structure ExecOutcome (ε V P A F : Type) where
  result : Except ε (BundleExports V)
  grabbed : List (CapturedObj P A)
  createAfter : F

/-- Ways `loadGlimmerSyntax` can fail: the bundle threw during execution,
reading `['ember-template-compiler/...'].default` off a match lacking that
sibling entry threw a `TypeError`, or no captured object matched and the
`unable to find` error (carrying its message) was thrown. -/
inductive LoadError (ε : Type) where
  | execError : ε → LoadError ε
  | typeError : LoadError ε
  | notFound : String → LoadError ε

/-- The ambient effect interface `loadGlimmerSyntax` runs against:
the md5-hex digest, the semantics of executing a bundle source text given
the installed `Object.create` value, the filesystem (`readFileSync`), and
the wrapper the interception installs around the original primitive. -/
structure World (P A V F ε : Type) where
  md5hex : String → String
  sem : String → F → ExecOutcome ε V P A F
  fs : String → String
  intercept : F → F

/-- The `for (let obj of grabbed)` scan: return the API record assembled
from the first captured object exposing `'@glimmer/syntax'` (with
`precompile`/`_Ember` taken from the exports and `cacheKey` the digest of
the source), or fall through to the `unable to find` error. -/
def scanGrabbed (md5hex : String → String) (source : String) (path : String)
    (theExports : BundleExports V) :
    List (CapturedObj P A) → Except (LoadError ε) (GlimmerSyntax P A V)
  | [] => Except.error (LoadError.notFound
      ("unable to find @glimmer/syntax methods in " ++ path))
  | obj :: rest =>
    match obj.glimmerSyntax with
    | some gm =>
      match obj.compileOptions with
      | some co =>
        Except.ok
          { print := gm.print
            preprocess := gm.preprocess
            defaultOptions := co.default
            precompile := theExports.precompile
            emberGlobals := theExports.emberGlobals
            cacheKey := md5hex source }
      | none => Except.error LoadError.typeError
    | none => scanGrabbed md5hex source path theExports rest

/-- `function loadGlimmerSyntax(templateCompilerPath)`: save the original
`Object.create`, read the bundle source, execute it with the interception
installed, restore the primitive in the `finally`, then scan the capture
list.  Returns the result (or error) together with the final global
state. -/
def loadGlimmerSyntax (w : World P A V F ε) (templateCompilerPath : String)
    (g : GlobalState F) :
    Except (LoadError ε) (GlimmerSyntax P A V) × GlobalState F :=
  let orig := g.objectCreate
  let source := w.fs templateCompilerPath
  let outcome := w.sem source (w.intercept orig)
  let gFinal : GlobalState F := { objectCreate := orig }
  match outcome.result with
  | Except.error e => (Except.error (LoadError.execError e), gFinal)
  | Except.ok theExports =>
    (scanGrabbed w.md5hex source templateCompilerPath theExports outcome.grabbed, gFinal)

/-! ## `TemplateCompiler.setup` -/

/-- `json-stable-stringify` of the record `{ syntax: <key> }` hashed for
the composite cache key (the argument is an md5 hex digest, so no JSON
string escaping arises). -/
def stringifySyntaxRecord (k : String) : String :=
  "\x7b\"syntax\":\"" ++ k ++ "\"\x7d"

/-- Everything `TemplateCompiler.setup` establishes: the extracted API,
the composite cache key, the instance's `userPluginsCount`, the registry
call trace, and the `_Ember` globals after `initializeEmberENV`. -/
structure SetupResult (P A V : Type) where
  syn : GlimmerSyntax P A V
  cacheKey : String
  userPluginsCount : Nat
  registry : List (String × P)
  ember : EmberGlobals V

/-- `TemplateCompiler.setup` (memoized in the source; modelled as the pure
derivation): extract the compiler, install plugins (host plugins, then the
resolver transform when present), initialize the Ember environment, and
digest `stringify({syntax: syntax.cacheKey})` into the composite cache
key. -/
def TemplateCompiler.setup (w : World P A V F ε) (params : SetupCompilerParams P V)
    (g : GlobalState F) :
    Except (LoadError ε) (SetupResult P A V) × GlobalState F :=
  match loadGlimmerSyntax w params.compilerPath g with
  | (Except.error e, gAfter) => (Except.error e, gAfter)
  | (Except.ok syn, gAfter) =>
    let installed := installPlugins params
    let ember := initializeEmberENV syn.emberGlobals params.EmberENV
    let cacheKey := w.md5hex (stringifySyntaxRecord syn.cacheKey)
    (Except.ok
      { syn := syn
        cacheKey := cacheKey
        userPluginsCount := installed.1
        registry := installed.2
        ember := ember }, gAfter)

/-! ## Post-setup compiler operations -/

/-- A `TemplateCompiler` after `setup` has run: the extracted API record,
the configured resolver, and the instance's `userPluginsCount`. -/
structure TemplateCompilerState (P A V : Type) where
  syn : GlimmerSyntax P A V
  resolver : Option (Resolver P)
  userPluginsCount : Nat

/-- `TemplateCompiler.precompile(moduleName, contents)`: compile the
BOM-stripped contents through the extracted `precompile` entry point with
`{contents, moduleName}`, and ask the resolver (when configured) for the
module's dependencies, else return none. -/
def TemplateCompilerState.precompile (tc : TemplateCompilerState P A V)
    (moduleName : String) (contents : String) : String × List ResolvedDep :=
  let compiled := tc.syn.precompile (stripBom contents)
    { contents := contents, moduleName := moduleName }
  let dependencies := match tc.resolver with
    | some r => r.dependenciesOf moduleName
    | none => []
  (compiled, dependencies)

/-- The `for (let { runtimeName, path } of dependencies)` loop of
`TemplateCompiler.compile`: push an import line and a `window.define`
line per dependency, post-incrementing `counter`. -/
def compileDepLines : Nat → List ResolvedDep → List String
  | _, [] => []
  | counter, d :: rest =>
    ("import a" ++ toString counter ++ " from \"" ++ d.path ++ "\";")
      :: ("window.define(\x27" ++ d.runtimeName
            ++ "\x27, function()\x7b return a" ++ toString counter ++ "\x7d);")
      :: compileDepLines (counter + 1) rest

/-- `TemplateCompiler.compile(moduleName, contents)`: `precompile`, emit
the dependency lines, push the final export statement, and join with
newlines. -/
def TemplateCompilerState.compile (tc : TemplateCompilerState P A V)
    (moduleName : String) (contents : String) : String :=
  let pc := tc.precompile moduleName contents
  let lines := compileDepLines 0 pc.2
    ++ ["export default Ember.HTMLBars.template(" ++ pc.1 ++ ");"]
  String.intercalate "\n" lines

/-- `TemplateCompiler.applyTransforms(moduleName, contents)`: take the
extracted compiler's default options for `{contents, moduleName}`, slice
any AST-plugin list down to the first `userPluginsCount` entries,
preprocess, and print. -/
def TemplateCompilerState.applyTransforms (tc : TemplateCompilerState P A V)
    (moduleName : String) (contents : String) : String :=
  let opts := tc.syn.defaultOptions
    { contents := contents, moduleName := moduleName, plugins := none }
  let opts2 := match opts.plugins with
    | some pl =>
      match pl.ast with
      | some l =>
        { opts with plugins := some { pl with ast := some (l.take tc.userPluginsCount) } }
      | none => opts
    | none => opts
  tc.syn.print (tc.syn.preprocess contents opts2)

/-- `TemplateCompiler.parse(moduleName, contents)`: preprocess with the
empty plugin object `{}` — deliberately no plugins run. -/
def TemplateCompilerState.parse (tc : TemplateCompilerState P A V)
    (moduleName : String) (contents : String) : A :=
  tc.syn.preprocess contents
    { contents := contents, moduleName := moduleName, plugins := some { ast := none } }

/-! ## Construction and portable reconstruction -/

/-- A freshly constructed `TemplateCompiler` instance: the class fields
`userPluginsCount = 0` and `isParallelSafe = false` together with the
constructor parameters. -/
structure TemplateCompiler (P V : Type) where
  params : SetupCompilerParams P V
  userPluginsCount : Nat
  isParallelSafe : Bool

/-- `new TemplateCompiler(params)`: field initializers run, so
`userPluginsCount` starts at `0` and `isParallelSafe` at `false`. -/
def TemplateCompiler.new (params : SetupCompilerParams P V) : TemplateCompiler P V :=
  { params := params, userPluginsCount := 0, isParallelSafe := false }

/-- The program fragment `PortableTemplateCompiler.serialize` emits:
it constructs `new TemplateCompiler(PortablePluginConfig.load(...))` and
then assigns `templateCompiler.isParallelSafe = <flag>` on the rebuilt
instance. -/
def rebuiltFromSerialized (params : SetupCompilerParams P V)
    (isParallelSafe : Bool) : TemplateCompiler P V :=
  let tc := TemplateCompiler.new params
  { tc with isParallelSafe := isParallelSafe }

/-! ## Staged tree processing (`TemplateCompileTree`) -/

/-- The `stage: 1 | 3` constructor parameter of `TemplateCompileTree`. -/
inductive Stage where
  | stage1 : Stage
  | stage3 : Stage
deriving DecidableEq

/-- The numeral interpolated into the filter name. -/
def Stage.toNat : Stage → Nat
  | Stage.stage1 => 1
  | Stage.stage3 => 3

/-- The options object `TemplateCompileTree`'s constructor passes to the
persistent filter. -/
structure FilterOptions where
  name : String
  persist : Bool
  extensions : List String
  targetExtension : Option String

/-- The `super(inputTree, {...})` options of `TemplateCompileTree`:
template-language extensions only, and a `js` target extension exactly in
stage 3 (`undefined` in stage 1). -/
def TemplateCompileTree.options (stage : Stage) : FilterOptions :=
  { name := "embroider-template-compile-stage" ++ toString stage.toNat
    persist := true
    extensions := ["hbs", "handlebars"]
    targetExtension := match stage with
      | Stage.stage3 => some "js"
      | Stage.stage1 => none }

/-- `TemplateCompileTree.processString`: stage 1 applies the transforms,
otherwise (stage 3) the full compile. -/
def TemplateCompileTree.processString (stage : Stage) (tc : TemplateCompilerState P A V)
    (source : String) (relativePath : String) : String :=
  match stage with
  | Stage.stage1 => tc.applyTransforms relativePath source
  | Stage.stage3 => tc.compile relativePath source

/-- Modelled from the spec: the persistent-filter abstraction
(`broccoli-persistent-filter`, an external collaborator not under `src/`)
processes exactly the files whose name ends in a dot followed by one of
the configured extensions. -/
def filterMatches (opts : FilterOptions) (path : String) : Bool :=
  opts.extensions.any (fun e => path.endsWith ("." ++ e))

/-- Modelled from the spec: replacing a file path's final extension, as the
persistent-filter abstraction does when a target extension is configured —
everything from the last dot on is replaced by a dot and the new
extension. -/
def replaceExt (p : String) (ext : String) : String :=
  if p.data.contains '.' then
    String.mk ((p.data.reverse.dropWhile (fun c => c != '.')).tail.reverse)
      ++ "." ++ ext
  else p ++ "." ++ ext

/-- Modelled from the spec: the output path the persistent-filter
abstraction writes a processed file to — the input path unchanged when no
target extension is configured, otherwise the input path with its
extension rewritten. -/
def filterOutputPath (opts : FilterOptions) (path : String) : String :=
  match opts.targetExtension with
  | none => path
  | some t => replaceExt path t

/-! ## Statement-side statement shapes for the emitted module text -/

/-- The import statement emitted for the dependency at position `i`. -/
def importStmt (i : Nat) (path : String) : String := "import a"
  ++ toString i ++ " from \"" ++ path ++ "\";"

/-- The runtime-registration statement emitted for the dependency at
position `i`. -/
def defineStmt (i : Nat) (runtimeName : String) : String :=
  "window.define(\x27" ++ runtimeName ++ "\x27, function()\x7b return a"
    ++ toString i ++ "\x7d);"

/-- The final export statement wrapping the compiled template payload. -/
def exportStmt (compiled : String) : String :=
  "export default Ember.HTMLBars.template(" ++ compiled ++ ");"

/-! ## Concrete instantiations used by witnesses -/

/-- A trivial bundle-exports value over unit types. -/
def witExports : BundleExports Unit :=
  { precompile := fun _ _ => "", emberGlobals := { FEATURES := [], ENV := [] } }

/-- A captured object carrying both expected module-map entries. -/
def witCaptured : CapturedObj Unit Unit :=
  { glimmerSyntax := some { print := fun _ => "", preprocess := fun _ _ => () }
    compileOptions := some { default := fun o => o } }

/-- A bundle execution that returns normally and captures one matching
object. -/
def witOutcome : ExecOutcome Unit Unit Unit Unit Unit :=
  { result := Except.ok witExports, grabbed := [witCaptured], createAfter := () }

/-- A world whose digest is the identity (injective), whose filesystem
maps each path to itself as content, and whose bundle semantics is
`witOutcome`. -/
def witWorld : World Unit Unit Unit Unit Unit :=
  { md5hex := fun s => s, sem := fun _ _ => witOutcome, fs := fun p => p
    intercept := fun f => f }

/-- Setup parameters naming bundle file `bundle-a`. -/
def witParamsA : SetupCompilerParams Unit Unit :=
  { compilerPath := "bundle-a", resolver := none, EmberENV := none
    plugins := { ast := none } }

/-- Setup parameters naming bundle file `bundle-b` (different bytes under
`witWorld.fs`). -/
def witParamsB : SetupCompilerParams Unit Unit :=
  { compilerPath := "bundle-b", resolver := none, EmberENV := none
    plugins := { ast := none } }

/-- The initial global state for the witness worlds. -/
def witG : GlobalState Unit := { objectCreate := () }

/-- The extracted API record `witWorld` yields for a bundle with source
text `src`. -/
def witSyn (src : String) : GlimmerSyntax Unit Unit Unit :=
  { preprocess := fun _ _ => (), print := fun _ => ""
    defaultOptions := fun o => o, precompile := fun _ _ => ""
    emberGlobals := { FEATURES := [], ENV := [] }, cacheKey := src }

/-- The setup result `witWorld` yields for a bundle with source text
`src`. -/
def witResult (src : String) : SetupResult Unit Unit Unit :=
  { syn := witSyn src, cacheKey := stringifySyntaxRecord src
    userPluginsCount := 0, registry := []
    ember := { FEATURES := [], ENV := [] } }

/-- An extracted API whose default options carry a five-entry AST-plugin
list (two user plugins followed by three built-ins, as numbers). -/
def witSynPlugins : GlimmerSyntax Nat Unit Unit :=
  { preprocess := fun _ _ => (), print := fun _ => "printed"
    defaultOptions := fun o => { o with plugins := some { ast := some [10, 20, 30, 40, 50] } }
    precompile := fun _ _ => "", emberGlobals := { FEATURES := [], ENV := [] }
    cacheKey := "" }

/-- A post-setup compiler with two user-installed plugins over
`witSynPlugins`. -/
def witTcPlugins : TemplateCompilerState Nat Unit Unit :=
  { syn := witSynPlugins, resolver := none, userPluginsCount := 2 }

/-- An extracted API whose precompile entry point returns the fixed
payload `PAYLOAD`. -/
def witSynPayload : GlimmerSyntax Unit Unit Unit :=
  { preprocess := fun _ _ => (), print := fun _ => ""
    defaultOptions := fun o => o, precompile := fun _ _ => "PAYLOAD"
    emberGlobals := { FEATURES := [], ENV := [] }, cacheKey := "" }

/-- A resolver-less post-setup compiler over `witSynPayload`. -/
def witTcNoResolver : TemplateCompilerState Unit Unit Unit :=
  { syn := witSynPayload, resolver := none, userPluginsCount := 0 }

/-- An extracted API whose precompile entry point returns its (stripped)
template argument, to observe BOM stripping. -/
def witSynEcho : GlimmerSyntax Unit Unit Unit :=
  { preprocess := fun _ _ => (), print := fun _ => ""
    defaultOptions := fun o => o, precompile := fun t _ => t
    emberGlobals := { FEATURES := [], ENV := [] }, cacheKey := "" }

/-- A post-setup compiler over `witSynEcho`. -/
def witTcEcho : TemplateCompilerState Unit Unit Unit :=
  { syn := witSynEcho, resolver := none, userPluginsCount := 0 }

/-- Concrete `_Ember` globals with one pre-existing feature flag. -/
def witGlobals : EmberGlobals Nat := { FEATURES := [("f0", 0)], ENV := [] }

/-- A concrete `EmberENV` configuration: a `FEATURES` table plus one
further top-level key. -/
def witEmberENV : List (String × EnvVal Nat) :=
  [("FEATURES", EnvVal.table [("x", 1)]), ("k", EnvVal.leaf 2)]

/-! ## Helper lemmas -/

/-- The compile loop's lines are the enumerated dependencies, two
statements each, with indices counting up from the initial counter. -/
theorem compileDepLines_eq (deps : List ResolvedDep) : ∀ n : Nat,
    compileDepLines n deps
      = (List.enumFrom n deps).flatMap
          (fun p => [importStmt p.1 p.2.path, defineStmt p.1 p.2.runtimeName]) := by
  induction deps with
  | nil => intro n; rfl
  | cons d rest ih =>
    intro n
    simp only [compileDepLines, List.enumFrom, List.flatMap_cons, ih (n + 1)]
    rfl

/-- Unfolding of the registration loop: it adds the list's length to the
counter and appends every plugin, tagged `'ast'`, in order. -/
theorem registerPluginsLoop_eq (l : List P) : ∀ (reg : List (String × P)) (n : Nat),
    registerPluginsLoop l reg n
      = (n + l.length, reg ++ l.map (fun p => ("ast", p))) := by
  induction l with
  | nil => intro reg n; simp [registerPluginsLoop]
  | cons p rest ih =>
    intro reg n
    simp [registerPluginsLoop, registerPlugin, ih]
    omega

/-- A successful capture-list scan yields a record whose `cacheKey` is
the digest of the bundle source. -/
theorem scanGrabbed_ok_cacheKey (md5hex : String → String) (source path : String)
    (theExports : BundleExports V) (l : List (CapturedObj P A))
    (syn : GlimmerSyntax P A V)
    (h : scanGrabbed (ε := ε) md5hex source path theExports l = Except.ok syn) :
    syn.cacheKey = md5hex source := by
  induction l with
  | nil => simp [scanGrabbed] at h
  | cons obj rest ih =>
    obtain ⟨gs, co⟩ := obj
    cases gs with
    | none => exact ih (by simpa [scanGrabbed] using h)
    | some gm =>
      cases co with
      | none => simp [scanGrabbed] at h
      | some cm =>
        simp only [scanGrabbed, Except.ok.injEq] at h
        rw [← h]

/-- A successful extraction yields a record whose `cacheKey` is the
digest of the bytes read from the bundle path. -/
theorem loadGlimmerSyntax_ok_cacheKey (w : World P A V F ε) (path : String)
    (g : GlobalState F) (syn : GlimmerSyntax P A V)
    (h : (loadGlimmerSyntax w path g).1 = Except.ok syn) :
    syn.cacheKey = w.md5hex (w.fs path) := by
  simp only [loadGlimmerSyntax] at h
  cases hres : (w.sem (w.fs path) (w.intercept g.objectCreate)).result with
  | error e => rw [hres] at h; simp at h
  | ok theExports =>
    rw [hres] at h
    exact scanGrabbed_ok_cacheKey w.md5hex (w.fs path) path theExports _ syn h

/-- A successful `setup` yields the composite cache key: the digest of
the stringified record holding the digest of the bundle bytes. -/
theorem setup_ok_cacheKey (w : World P A V F ε) (params : SetupCompilerParams P V)
    (g : GlobalState F) (r : SetupResult P A V)
    (h : (TemplateCompiler.setup w params g).1 = Except.ok r) :
    r.cacheKey
      = w.md5hex (stringifySyntaxRecord (w.md5hex (w.fs params.compilerPath))) := by
  unfold TemplateCompiler.setup at h
  cases hload : loadGlimmerSyntax w params.compilerPath g with
  | mk res gAfter =>
    rw [hload] at h
    cases res with
    | error e => simp at h
    | ok syn =>
      simp only [Except.ok.injEq] at h
      have hk := loadGlimmerSyntax_ok_cacheKey w params.compilerPath g syn
        (by rw [hload])
      rw [← h, ← hk]

/-- The stringified one-field record is injective in its field. -/
theorem stringifySyntaxRecord_inj {a b : String}
    (h : stringifySyntaxRecord a = stringifySyntaxRecord b) : a = b := by
  unfold stringifySyntaxRecord at h
  have hd := congrArg String.data h
  simp only [String.data_append, List.append_assoc] at hd
  have h2 := List.append_cancel_left hd
  have h3 := List.append_cancel_right h2
  cases a; cases b; subst h3; rfl

/-- Folding with an inline skip of the `FEATURES` key equals filtering it
out first. -/
theorem foldl_skip_eq_filter (l : List (String × EnvVal V)) :
    ∀ t : List (String × EnvVal V),
    l.foldl (fun t kv => if kv.1 = "FEATURES" then t else setKey t kv.1 kv.2) t
      = (l.filter (fun kv => kv.1 != "FEATURES")).foldl
          (fun t kv => setKey t kv.1 kv.2) t := by
  induction l with
  | nil => intro t; rfl
  | cons kv rest ih =>
    intro t
    by_cases hk : kv.1 = "FEATURES"
    · simp [List.filter_cons, hk, ih]
    · simp [List.filter_cons, hk, ih]

/-! ## Claims -/

/-- C1: for every module name and contents, `compile` emits, for each
dependency returned by `precompile` and in dependency-sequence order,
one import statement followed by one runtime-registration statement, the
positional bindings `a0, a1, …` numbered sequentially from 0, and then
exactly one final statement exporting the compiled template wrapped in
the host runtime's template-wrapper call. -/
theorem compile_emits_deps_then_export (tc : TemplateCompilerState P A V)
    (moduleName contents : String) :
    tc.compile moduleName contents
      = String.intercalate "\n"
          ((tc.precompile moduleName contents).2.enum.flatMap
              (fun p => [importStmt p.1 p.2.path, defineStmt p.1 p.2.runtimeName])
            ++ [exportStmt (tc.precompile moduleName contents).1]) := by
  simp only [TemplateCompilerState.compile]
  rw [compileDepLines_eq]
  rfl

/-- C2: two cores built from bundle files with identical bytes — even at
different paths — share the composite `cacheKey`; under a collision-free
digest, bundle files whose bytes differ yield different `cacheKey`s. -/
theorem cacheKey_content_addressed (w : World P A V F ε)
    (params1 params2 : SetupCompilerParams P V) (g1 g2 : GlobalState F)
    (r1 r2 : SetupResult P A V)
    (h1 : (TemplateCompiler.setup w params1 g1).1 = Except.ok r1)
    (h2 : (TemplateCompiler.setup w params2 g2).1 = Except.ok r2) :
    (w.fs params1.compilerPath = w.fs params2.compilerPath →
        r1.cacheKey = r2.cacheKey)
    ∧ (Function.Injective w.md5hex →
        w.fs params1.compilerPath ≠ w.fs params2.compilerPath →
        r1.cacheKey ≠ r2.cacheKey) := by
  have k1 := setup_ok_cacheKey w params1 g1 r1 h1
  have k2 := setup_ok_cacheKey w params2 g2 r2 h2
  constructor
  · intro he; rw [k1, k2, he]
  · intro hinj hne heq
    rw [k1, k2] at heq
    exact hne (hinj (stringifySyntaxRecord_inj (hinj heq)))

/-- Witness for C2 at the concrete world `witWorld` (identity digest,
path-as-content filesystem). -/
theorem cacheKey_content_addressed_witness :
    (witResult "bundle-a").cacheKey = (witResult "bundle-a").cacheKey
      ∧ (witResult "bundle-a").cacheKey ≠ (witResult "bundle-b").cacheKey :=
  ⟨(cacheKey_content_addressed witWorld witParamsA witParamsA witG witG
      (witResult "bundle-a") (witResult "bundle-a") rfl rfl).1 rfl,
   (cacheKey_content_addressed witWorld witParamsA witParamsB witG witG
      (witResult "bundle-a") (witResult "bundle-b") rfl rfl).2
      Function.injective_id (by decide)⟩

/-- C3: `applyTransforms` computes the extracted compiler's default
options and, when they carry an AST-plugin list, preprocesses with that
list truncated to the first `userPluginsCount` entries and prints the
result; with 2 user plugins and a five-entry list, exactly the first two
survive. -/
theorem applyTransforms_truncates_to_user_plugins
    (tc : TemplateCompilerState P A V) (moduleName contents : String)
    (pl : Plugins P) (l : List P)
    (hpl : (tc.syn.defaultOptions
        { contents := contents, moduleName := moduleName,
          plugins := none }).plugins = some pl)
    (hast : pl.ast = some l) :
    tc.applyTransforms moduleName contents
      = tc.syn.print (tc.syn.preprocess contents
          { tc.syn.defaultOptions
              { contents := contents, moduleName := moduleName, plugins := none }
            with plugins := some { pl with ast := some (l.take tc.userPluginsCount) } })
    ∧ (tc.userPluginsCount = 2 → l.length = 5 →
        l.take tc.userPluginsCount <+: l
          ∧ (l.take tc.userPluginsCount).length = 2) := by
  constructor
  · simp only [TemplateCompilerState.applyTransforms, hpl, hast]
  · intro h2 h5
    refine ⟨List.take_prefix _ _, ?_⟩
    rw [h2]
    simp [h5]

/-- Witness for C3: two user plugins against a five-entry default list. -/
theorem applyTransforms_truncates_witness :
    witTcPlugins.applyTransforms "m" "c" = "printed"
      ∧ ([10, 20, 30, 40, 50].take 2 <+: [10, 20, 30, 40, 50]
          ∧ (([10, 20, 30, 40, 50] : List Nat).take 2).length = 2) := by
  have h := applyTransforms_truncates_to_user_plugins witTcPlugins "m" "c"
    { ast := some [10, 20, 30, 40, 50] } [10, 20, 30, 40, 50] rfl rfl
  exact ⟨h.1.trans rfl, h.2 rfl rfl⟩

/-- C4: the interception of the global object-construction primitive is
always removed: whether the bundle's one-time execution returns normally
or throws, `Object.create` equals its original value once
`loadGlimmerSyntax` returns or propagates. -/
theorem objectCreate_restored_after_load (w : World P A V F ε)
    (path : String) (g : GlobalState F) :
    ((loadGlimmerSyntax w path g).2).objectCreate = g.objectCreate := by
  simp only [loadGlimmerSyntax]
  cases (w.sem (w.fs path) (w.intercept g.objectCreate)).result <;> rfl

/-- C5: with no resolver configured, `precompile` returns an empty
dependency sequence for every input, so `compile`'s output has
zero import lines and is exactly the single export statement wrapping the
precompiled payload. -/
theorem no_resolver_empty_deps (tc : TemplateCompilerState P A V)
    (moduleName contents : String) (h : tc.resolver = none) :
    (tc.precompile moduleName contents).2 = []
      ∧ tc.compile moduleName contents
          = exportStmt (tc.precompile moduleName contents).1 := by
  have hd : (tc.precompile moduleName contents).2 = [] := by
    simp only [TemplateCompilerState.precompile, h]
  refine ⟨hd, ?_⟩
  simp only [TemplateCompilerState.compile]
  rw [hd]
  rfl

/-- Witness for C5: the end-to-end no-resolver scenario
`compile("greeting", "Hello")`. -/
theorem no_resolver_empty_deps_witness :
    (witTcNoResolver.precompile "greeting" "Hello").2 = []
      ∧ witTcNoResolver.compile "greeting" "Hello"
          = "export default Ember.HTMLBars.template(PAYLOAD);" := by
  have h := no_resolver_empty_deps witTcNoResolver "greeting" "Hello" rfl
  exact ⟨h.1, h.2.trans (by decide)⟩

/-- C6: `precompile` strips a leading byte-order mark before invoking the
extracted precompile entry point with `{contents, moduleName}`, and the
compiled result is exactly that entry point's value on the BOM-stripped
input; stripping drops the first character exactly when the input starts
with U+FEFF. -/
theorem precompile_strips_bom (tc : TemplateCompilerState P A V)
    (moduleName contents : String) :
    (tc.precompile moduleName contents).1
      = tc.syn.precompile (stripBom contents)
          { contents := contents, moduleName := moduleName }
    ∧ (contents.front = '\uFEFF' → stripBom contents = contents.drop 1)
    ∧ (contents.front ≠ '\uFEFF' → stripBom contents = contents) := by
  refine ⟨rfl, ?_, ?_⟩ <;> intro h <;> simp [stripBom, h]

/-- Witness for C6: a BOM-prefixed template against the echoing
compiler. -/
theorem precompile_strips_bom_witness :
    (witTcEcho.precompile "m" "\uFEFFHello").1 = "Hello"
      ∧ stripBom "\uFEFFHello" = "Hello" := by
  have h := precompile_strips_bom witTcEcho "m" "\uFEFFHello"
  have hs := h.2.1 (by decide)
  exact ⟨h.1.trans (by decide), hs.trans (by decide)⟩

/-- C7: plugin installation registers every host-supplied AST plugin in
insertion order, appends the resolver-supplied plugin after them exactly
when a resolver is present, and the user-installed count is the number of
host plugins plus one when a resolver is present and plus zero
otherwise. -/
theorem installPlugins_order_and_count (params : SetupCompilerParams P V) :
    installPlugins params
      = ((params.plugins.ast.getD []).length
            + (if params.resolver.isSome then 1 else 0),
         (params.plugins.ast.getD []).map (fun p => ("ast", p))
            ++ (match params.resolver with
                | some r => [("ast", r.astTransformerPlugin)]
                | none => [])) := by
  unfold installPlugins registerPlugins
  cases hast : params.plugins.ast <;> cases hres : params.resolver <;>
    simp [registerPluginsLoop_eq, registerPlugin, hast, hres]

/-- C8: environment initialization copies every `FEATURES` entry into the
feature-flag table, copies every other top-level key except the
`FEATURES` key itself into the environment table, and does nothing at all
without a configuration object. -/
theorem initializeEmberENV_spec (g : EmberGlobals V)
    (e : List (String × EnvVal V)) (feats : List (String × V)) :
    initializeEmberENV g none = g
    ∧ (lookupKey e "FEATURES" = some (EnvVal.table feats) →
        (initializeEmberENV g (some e)).FEATURES
          = feats.foldl (fun t (kv : String × V) => setKey t kv.1 kv.2) g.FEATURES)
    ∧ (lookupKey e "FEATURES" = none →
        (initializeEmberENV g (some e)).FEATURES = g.FEATURES)
    ∧ (initializeEmberENV g (some e)).ENV
        = (e.filter (fun kv => kv.1 != "FEATURES")).foldl
            (fun t kv => setKey t kv.1 kv.2) g.ENV := by
  refine ⟨rfl, ?_, ?_, ?_⟩
  · intro h; simp [initializeEmberENV, h]
  · intro h; simp [initializeEmberENV, h]
  · unfold initializeEmberENV
    cases hf : lookupKey e "FEATURES" with
    | none => simp [hf, foldl_skip_eq_filter]
    | some v => cases v <;> simp [hf, foldl_skip_eq_filter]

/-- Witness for C8: one feature flag copied next to a pre-existing one,
one other top-level key copied into the environment table. -/
theorem initializeEmberENV_spec_witness :
    initializeEmberENV witGlobals none = witGlobals
      ∧ (initializeEmberENV witGlobals (some witEmberENV)).FEATURES
          = [("f0", 0), ("x", 1)]
      ∧ (initializeEmberENV witGlobals (some witEmberENV)).ENV
          = [("k", EnvVal.leaf 2)] := by
  have h := initializeEmberENV_spec witGlobals witEmberENV [("x", 1)]
  refine ⟨h.1, ?_, ?_⟩
  · rw [h.2.1 (by decide)]; decide
  · rw [h.2.2.2]; decide

/-- C9: the staged tree processor handles exactly the files with
template-language extensions (`hbs`, `handlebars`); stage-1 output keeps
the input path unchanged while stage-3 output rewrites the extension to
`js`. -/
theorem stage_extension_rule :
    (∀ p : String,
        filterMatches (TemplateCompileTree.options Stage.stage1) p
          = (p.endsWith ".hbs" || p.endsWith ".handlebars"))
    ∧ (∀ p : String,
        filterMatches (TemplateCompileTree.options Stage.stage3) p
          = (p.endsWith ".hbs" || p.endsWith ".handlebars"))
    ∧ filterOutputPath (TemplateCompileTree.options Stage.stage1) "templates/foo.hbs"
        = "templates/foo.hbs"
    ∧ filterOutputPath (TemplateCompileTree.options Stage.stage3) "templates/foo.hbs"
        = "templates/foo.js" := by
  refine ⟨?_, ?_, by decide, by decide⟩ <;> intro p <;>
    simp [filterMatches, TemplateCompileTree.options]

/-- C10: every newly constructed `TemplateCompiler` has
`isParallelSafe = false`; the reconstruction fragment the serializer
emits assigns the explicit flag it carries to the rebuilt compiler. -/
theorem isParallelSafe_starts_false (params : SetupCompilerParams P V) :
    (TemplateCompiler.new params).isParallelSafe = false
    ∧ ∀ b : Bool, (rebuiltFromSerialized params b).isParallelSafe = b :=
  ⟨rfl, fun _ => rfl⟩

end Embroider
